import Mathlib

/-!
Verification of the blueprint provisioning module (`mmworkbench/_util.py`).

The Python source is shallowly embedded below.  Stateful operations
(directory creation, HTTP probe, download, extraction, index loading) are
made explicit: every function returns its result together with a trace of
the network/filesystem effects it performed, and the outcome of each
external operation is an input supplied through an environment record.
Timestamps (`datetime` values) are modelled as `Nat`, with `datetime.min`
as `0`: every parsed timestamp is `≥ datetime.min`, which is exactly the
property the source relies on.
-/

namespace Mmworkbench

/-- `BLUEPRINT_S3_URL_BASE` from `_util.py`. -/
def BLUEPRINT_S3_URL_BASE : String :=
  "https://s3-us-west-2.amazonaws.com/mindmeld/workbench-data/blueprints/"

/-- `BLUEPRINT_APP_ARCHIVE` from `_util.py`. -/
def BLUEPRINT_APP_ARCHIVE : String := "app.tar.gz"

/-- `BLUEPRINT_KB_ARCHIVE` from `_util.py`. -/
def BLUEPRINT_KB_ARCHIVE : String := "kb.tar.gz"

/-- The static allow-list `BLUEPRINTS` from `_util.py` (its keys; the dict
values are empty). -/
def BLUEPRINTS : List String := ["quick_start", "food_ordering"]

/-- The two archive kinds handled by `Blueprint._fetch_archive`
(`archive_type` is `'app'` or `'kb'` at every call site). -/
inductive ArchiveType
  | app
  | kb
deriving DecidableEq

/-- The filename lookup `{'app': BLUEPRINT_APP_ARCHIVE, 'kb': BLUEPRINT_KB_ARCHIVE}.get(archive_type)`. -/
def archiveFilename : ArchiveType → String
  | ArchiveType.app => BLUEPRINT_APP_ARCHIVE
  | ArchiveType.kb => BLUEPRINT_KB_ARCHIVE

/-- `os.path.join` for one relative component. -/
def joinP (a b : String) : String := a ++ "/" ++ b

/-- Modelled from the spec: `path.get_cached_blueprint_path` is imported from
the repository's `path` module, which is not part of the provided sources.
Per the spec's Cache Path Resolver it is a pure, deterministic map from the
bundle name to a directory under the per-user cache root
`~/.mmworkbench/blueprints`. -/
def get_cached_blueprint_path (name : String) : String :=
  joinP "~/.mmworkbench/blueprints" name

/-- `urljoin(urljoin(BLUEPRINT_S3_URL_BASE, name + '/'), filename)`: the base
ends in `/` and both joined parts are plain relative names, so `urljoin`
concatenates. -/
def blueprintURL (name : String) (ty : ArchiveType) : String :=
  BLUEPRINT_S3_URL_BASE ++ name ++ "/" ++ archiveFilename ty

/-- `os.path.join(cache_dir, filename)` for the local archive file. -/
def localArchivePath (name : String) (ty : ArchiveType) : String :=
  joinP (get_cached_blueprint_path name) (archiveFilename ty)

/-- `datetime.min`, the value used for `local_modified` when the local file
does not exist.  Timestamps are `Nat`, so `0` really is the least timestamp. -/
def datetimeMin : Nat := 0

/-- Outcome of `os.makedirs(cache_dir)`: success, `FileExistsError`
(the directory already exists, e.g. created by a concurrent fetch), or any
other `OSError`. -/
inductive MkdirOutcome
  | created
  | alreadyExists
  | otherError
deriving DecidableEq

/-- The response of `requests.head(remote_archive)` when no exception is
raised: its status code and the raw `last-modified` header, if present. -/
structure HeadResp where
  status : Nat
  lastModified : Option String
deriving DecidableEq

/-- The state of the local archive file.  The `complete` flag records whether
the bytes at the path are a fully downloaded archive; the Python code never
inspects it (only the mtime is visible to the freshness check), which is what
claims about partial downloads are about. -/
inductive FileState
  | absent
  | file (mtime : Nat) (complete : Bool)
deriving DecidableEq

/-- `os.path.getmtime` wrapped in `try/except FileNotFoundError`:
the file's mtime, or `datetime.min` when the file is absent. -/
def FileState.mtimeOr (fs : FileState) (d : Nat) : Nat :=
  match fs with
  | FileState.absent => d
  | FileState.file m _ => m

/-- Environment for one `_fetch_archive` call: the outcome of each external
operation it performs.  `parseDate` abstracts `email.utils.parsedate`
composed with the `datetime(...)` constructor (`none` = the header text does
not parse); `now` is the mtime any write performed by this call gives the
local file. -/
structure FetchEnv where
  mkdir : MkdirOutcome
  head : Option HeadResp
  parseDate : String → Option Nat
  localFile : FileState
  downloadOk : Bool
  now : Nat

/-- The errors the embedded operations can raise, one constructor per
`raise`/uncaught-exception site in the source. -/
inductive BlueprintError
  | unknownBlueprint
  | missingEsHost
  | cacheDirUnavailable
  | probeNetworkError
  | headerMissing
  | headerUnparsable
  | downloadFailed
  | unpackFailed
  | indexLoadFailed
deriving DecidableEq

/-- One network or filesystem operation performed by the code. -/
inductive Effect
  | mkdirCache (dir : String)
  | headProbe (ty : ArchiveType) (url : String)
  | getMTime (p : String)
  | download (ty : ArchiveType) (url : String) (dest : String)
  | unpack (archive : String) (dest : String)
  | walkDir (dir : String)
  | loadIndex (appName indexName dataFile esHost : String)
deriving DecidableEq

deriving instance DecidableEq for Except

/-- Result of `_fetch_archive`: the returned value (or the exception), the
effect trace, and the state of the local archive file afterwards. -/
structure FetchOut where
  result : Except BlueprintError String
  trace : List Effect
  fileAfter : FileState
deriving DecidableEq

/-- `Blueprint._fetch_archive(name, archive_type)`, line by line:
`os.makedirs` with `FileExistsError` ignored; `requests.head`;
`datetime(*parsedate(headers.get('last-modified'))[:6])` (an absent header
makes `parsedate(None)` raise `AttributeError`, an unparsable one makes
`None[:6]` raise `TypeError`); `os.path.getmtime` with `FileNotFoundError`
mapped to `datetime.min`; the freshness comparison; and `urlretrieve`, which
streams directly into the destination file, so a failed download leaves a
partial file there with a current mtime. -/
def fetch_archive (env : FetchEnv) (name : String) (ty : ArchiveType) : FetchOut :=
  let cacheDir := get_cached_blueprint_path name
  let tr0 := [Effect.mkdirCache cacheDir]
  match env.mkdir with
  | MkdirOutcome.otherError =>
    { result := Except.error BlueprintError.cacheDirUnavailable, trace := tr0,
      fileAfter := env.localFile }
  | _ =>
    let localArchive := localArchivePath name ty
    let remoteArchive := blueprintURL name ty
    let tr1 := tr0 ++ [Effect.headProbe ty remoteArchive]
    match env.head with
    | none =>
      { result := Except.error BlueprintError.probeNetworkError, trace := tr1,
        fileAfter := env.localFile }
    | some resp =>
      match resp.lastModified with
      | none =>
        { result := Except.error BlueprintError.headerMissing, trace := tr1,
          fileAfter := env.localFile }
      | some s =>
        match env.parseDate s with
        | none =>
          { result := Except.error BlueprintError.headerUnparsable, trace := tr1,
            fileAfter := env.localFile }
        | some remoteModified =>
          let tr2 := tr1 ++ [Effect.getMTime localArchive]
          let localModified := env.localFile.mtimeOr datetimeMin
          if remoteModified < localModified then
            { result := Except.ok localArchive, trace := tr2,
              fileAfter := env.localFile }
          else
            let tr3 := tr2 ++ [Effect.download ty remoteArchive localArchive]
            if env.downloadOk then
              { result := Except.ok localArchive, trace := tr3,
                fileAfter := FileState.file env.now true }
            else
              { result := Except.error BlueprintError.downloadFailed, trace := tr3,
                fileAfter := FileState.file env.now false }

/-- Is an effect a download (an `urlretrieve` call)? -/
def isDownloadEff : Effect → Bool
  | Effect.download _ _ _ => true
  | _ => false

/-- Does a trace contain a download? -/
def hasDownloadEff (tr : List Effect) : Bool := tr.any isDownloadEff

/-- Is an effect part of fetching the knowledge-base archive
(a probe of, or download from, the kb archive URL)? -/
def isKbFetchEff : Effect → Bool
  | Effect.headProbe ArchiveType.kb _ => true
  | Effect.download ArchiveType.kb _ _ => true
  | _ => false

/-- Does a trace touch the knowledge-base archive remotely? -/
def hasKbFetchEff (tr : List Effect) : Bool := tr.any isKbFetchEff

/-- Is an effect an invocation of the external index-loading collaborator
(`QuestionAnswerer.load_index`)? -/
def isLoadIndexEff : Effect → Bool
  | Effect.loadIndex _ _ _ _ => true
  | _ => false

/-- The subtrace of index-loading invocations. -/
def loadIndexEffects (tr : List Effect) : List Effect := tr.filter isLoadIndexEff

/-- Index of the last `'.'` in a list of characters, if any. -/
def lastDot : List Char → Option Nat
  | [] => none
  | c :: rest =>
    match lastDot rest with
    | some k => some (k + 1)
    | none => if c = '.' then some (0 : Nat) else none

/-- The stem part of `os.path.splitext(filename)` for a plain filename (no
directory separators, which is what `os.walk` yields): split at the last dot,
unless every character before it is itself a dot (so `.bashrc` and `..` keep
their dots, exactly as `genericpath._splitext` does). -/
def splitextStem (s : String) : String :=
  let cs := s.data
  match lastDot cs with
  | none => s
  | some k =>
    if (cs.take k).any (fun c => c ≠ '.') then String.mk (cs.take k) else s

/-- The characters after the last `/` of a character list (the whole list if
it has no `/`). -/
def afterLastSlash : List Char → List Char
  | [] => []
  | c :: rest =>
    if c = '/' then afterLastSlash rest
    else if rest.contains '/' then afterLastSlash rest
    else c :: rest

/-- The second component of `os.path.split(p)`: everything after the last
`/`. -/
def basename (s : String) : String := String.mk (afterLastSlash s.data)

/-- `os.path.isabs`: does the path start at the root? -/
def isAbsStr (s : String) : Bool :=
  match s.data with
  | [] => false
  | c :: _ => c = '/'

/-- `os.path.abspath` as used here: a path already starting at the root is
kept, a relative one is joined onto the current working directory (path
normalisation, which no claim depends on, is omitted). -/
def abspath (cwd s : String) : String :=
  if isAbsStr s then s else joinP cwd s

/-- The es-host resolution step of `setup_kb` (lines 106-110): a truthy
`es_host` argument is used as is; otherwise `os.environ['MM_ES_HOST']` is
read, and a `KeyError` there (environment variable absent, `none`) becomes
the `ValueError`.  Python truthiness: `None` and `''` are falsy. -/
def resolveEsHost (arg envVar : Option String) : Option String :=
  match arg with
  | some h => if h = "" then envVar else some h
  | none => envVar

/-- Environment for an orchestrator call: the working directory, the
`MM_ES_HOST` environment variable, one fetch environment per archive,
whether each `shutil.unpack_archive` call succeeds, and the first triple of
`os.walk(kb_dir)` — its immediate subdirectories (each with the files it
contains, which the code discards) and its immediate files.  `loadFails`
tells which `QuestionAnswerer.load_index` calls raise. -/
structure Env where
  cwd : String
  mmEsHost : Option String
  appFetch : FetchEnv
  kbFetch : FetchEnv
  appUnpackOk : Bool
  kbUnpackOk : Bool
  kbSubdirs : List (String × List String)
  kbFiles : List String
  loadFails : String → Bool

/-- The `for index in index_files` loop of `setup_kb`: for each file, derive
the index name with `os.path.splitext`, build the data-file path, and call
`QuestionAnswerer.load_index(app_name, index_name, data_file, es_host)`; an
exception aborts the remaining iterations. -/
def dispatchIndexes (loadFails : String → Bool) (appName kbDir host : String) :
    List String → Except BlueprintError Unit × List Effect
  | [] => (Except.ok (), [])
  | f :: rest =>
    let eff := Effect.loadIndex appName (splitextStem f) (joinP kbDir f) host
    if loadFails f then (Except.error BlueprintError.indexLoadFailed, [eff])
    else
      let (r, tr) := dispatchIndexes loadFails appName kbDir host rest
      (r, eff :: tr)

/-- `Blueprint.setup_app(name, app_path)`: validate the name against
`BLUEPRINTS`, resolve and absolutise the app path (defaulting to
`<cwd>/<name>`), fetch the app archive, and unpack it into the app path. -/
def setup_app (env : Env) (name : String) (appPath : Option String) :
    Except BlueprintError String × List Effect :=
  if name ∈ BLUEPRINTS then
    let ap := abspath env.cwd (appPath.getD (joinP env.cwd name))
    let fo := fetch_archive env.appFetch name ArchiveType.app
    match fo.result with
    | Except.error e => (Except.error e, fo.trace)
    | Except.ok la =>
      let tr := fo.trace ++ [Effect.unpack la ap]
      if env.appUnpackOk then (Except.ok ap, tr)
      else (Except.error BlueprintError.unpackFailed, tr)
  else (Except.error BlueprintError.unknownBlueprint, [])

/-- `Blueprint.setup_kb(name, app_path, es_host)`: validate the name, derive
`app_name` from the app path, resolve the es host (failing when neither the
argument nor `MM_ES_HOST` supplies one), fetch the kb archive, unpack it into
`<cache_dir>/kb`, list that directory's immediate files with
`next(os.walk(kb_dir))` (subdirectories are discarded), and dispatch each
file to the index loader. -/
def setup_kb (env : Env) (name : String) (appPath : Option String)
    (esHost : Option String) : Except BlueprintError Unit × List Effect :=
  if name ∈ BLUEPRINTS then
    let ap := abspath env.cwd (appPath.getD (joinP env.cwd name))
    let appName := basename ap
    match resolveEsHost esHost env.mmEsHost with
    | none => (Except.error BlueprintError.missingEsHost, [])
    | some host =>
      let cacheDir := get_cached_blueprint_path name
      let fo := fetch_archive env.kbFetch name ArchiveType.kb
      match fo.result with
      | Except.error e => (Except.error e, fo.trace)
      | Except.ok la =>
        let kbDir := joinP cacheDir "kb"
        let tr1 := fo.trace ++ [Effect.unpack la kbDir]
        if env.kbUnpackOk then
          let (r, tr2) := dispatchIndexes env.loadFails appName kbDir host env.kbFiles
          (r, tr1 ++ Effect.walkDir kbDir :: tr2)
        else (Except.error BlueprintError.unpackFailed, tr1)
  else (Except.error BlueprintError.unknownBlueprint, [])

/-- `Blueprint.__call__(name, app_path, es_host)` — the `provision` entry
point: validate the name before anything else, then `setup_app`, then
`setup_kb`, returning the resolved app path. -/
def blueprint (env : Env) (name : String) (appPath : Option String)
    (esHost : Option String) : Except BlueprintError String × List Effect :=
  if name ∈ BLUEPRINTS then
    match setup_app env name appPath with
    | (Except.error e, tr) => (Except.error e, tr)
    | (Except.ok ap, tr) =>
      let (r, tr2) := setup_kb env name (some ap) esHost
      match r with
      | Except.error e => (Except.error e, tr ++ tr2)
      | Except.ok _ => (Except.ok ap, tr ++ tr2)
  else (Except.error BlueprintError.unknownBlueprint, [])

/-! ### The installer (`shutil.unpack_archive`) at the archive-member level -/

/-- An absolute filesystem path, as its list of components. -/
abbrev AbsPath := List String

/-- Resolve one component of a relative name against a base path, the way the
filesystem resolves it under a join: empty and `.` components are no-ops,
`..` moves to the parent directory, anything else descends. -/
def applyComponent (p : AbsPath) (c : String) : AbsPath :=
  if c = "" ∨ c = "." then p
  else if c = ".." then p.dropLast
  else p ++ [c]

/-- The path at which a tar member whose (relative) name has components
`entry` lands when extracted into `dest`: the resolution of
`os.path.join(dest, member.name)`. -/
def resolveUnder (dest : AbsPath) (entry : List String) : AbsPath :=
  entry.foldl applyComponent dest

/-- Is `p` equal to or inside the directory `dest`? -/
def isUnder (dest p : AbsPath) : Bool := dest.isPrefixOf p

/-- `shutil.unpack_archive(archive, dest)` for a gzip tarball dispatches to
`tarfile.TarFile.extractall`, which — in the Python versions this source
targets — extracts every member at `os.path.join(dest, member.name)` without
examining the resolved path: no member is rejected and no exception is raised
for a parent-directory-escaping name.  The value is the list of paths
created, one per member of the archive. -/
def unpack_archive (entries : List (List String)) (dest : AbsPath) : List AbsPath :=
  entries.map (resolveUnder dest)

/-! ### Theorems for the claims -/

/-- C9: for every fetch invocation, creation of the cache directory treats an
already-existing directory as success — a fetch that loses a creation race
behaves exactly like one that created the directory itself, so two racing
fetches both proceed — while any other directory-creation error is fatal and
propagates as the cache-directory failure. -/
theorem C9_mkdir_race_tolerated (env : FetchEnv) (name : String) (ty : ArchiveType) :
    fetch_archive { env with mkdir := MkdirOutcome.alreadyExists } name ty
      = fetch_archive { env with mkdir := MkdirOutcome.created } name ty
    ∧ (fetch_archive { env with mkdir := MkdirOutcome.otherError } name ty).result
      = Except.error BlueprintError.cacheDirUnavailable :=
  ⟨rfl, rfl⟩

/-- C3: for every bundle name outside the registry, `provision`
(`Blueprint.__call__`) fails with the unknown-bundle validation error and its
effect trace is empty: no network or filesystem operation happens at all. -/
theorem C3_unknown_bundle_no_io (env : Env) (name : String)
    (appPath esHost : Option String) (h : name ∉ BLUEPRINTS) :
    blueprint env name appPath esHost
      = (Except.error BlueprintError.unknownBlueprint, []) := by
  simp [blueprint, h]

/-- C3 witness: the unknown name `"not_a_blueprint"` fails with no effects. -/
theorem C3_unknown_bundle_no_io_witness :
    "not_a_blueprint" ∉ BLUEPRINTS
    ∧ blueprint
        ⟨"/cwd", none,
          ⟨MkdirOutcome.created, none, fun _ => none, FileState.absent, true, 0⟩,
          ⟨MkdirOutcome.created, none, fun _ => none, FileState.absent, true, 0⟩,
          true, true, [], [], fun _ => false⟩
        "not_a_blueprint" none none
      = (Except.error BlueprintError.unknownBlueprint, []) :=
  ⟨by decide, C3_unknown_bundle_no_io _ _ none none (by decide)⟩

/-- C10: `setup_app` and `setup_kb`, called directly rather than through
`provision`, each independently validate the bundle name against the registry
and fail with the unknown-bundle validation error with an empty effect trace
(no I/O). -/
theorem C10_direct_validation (env : Env) (name : String)
    (appPath esHost : Option String) (h : name ∉ BLUEPRINTS) :
    setup_app env name appPath = (Except.error BlueprintError.unknownBlueprint, [])
    ∧ setup_kb env name appPath esHost
      = (Except.error BlueprintError.unknownBlueprint, []) := by
  refine ⟨?_, ?_⟩ <;> simp [setup_app, setup_kb, h]

/-- C10 witness: the unknown name `"store_info"` fails in both direct entry
points with no effects. -/
theorem C10_direct_validation_witness :
    "store_info" ∉ BLUEPRINTS
    ∧ setup_app
        ⟨"/cwd", none,
          ⟨MkdirOutcome.created, none, fun _ => none, FileState.absent, true, 0⟩,
          ⟨MkdirOutcome.created, none, fun _ => none, FileState.absent, true, 0⟩,
          true, true, [], [], fun _ => false⟩
        "store_info" none
      = (Except.error BlueprintError.unknownBlueprint, [])
    ∧ setup_kb
        ⟨"/cwd", none,
          ⟨MkdirOutcome.created, none, fun _ => none, FileState.absent, true, 0⟩,
          ⟨MkdirOutcome.created, none, fun _ => none, FileState.absent, true, 0⟩,
          true, true, [], [], fun _ => false⟩
        "store_info" none (some "es:9200")
      = (Except.error BlueprintError.unknownBlueprint, []) :=
  ⟨by decide,
   (C10_direct_validation _ _ none (some "es:9200") (by decide)).1,
   (C10_direct_validation _ _ none (some "es:9200") (by decide)).2⟩

/-- C2: evaluation of the installer at an archive whose single member is
named `../evil.txt`, extracted into `/home/user/app`: the member is not
rejected — extraction succeeds with no error of any kind — and the file it
creates, `/home/user/evil.txt`, lies outside the destination directory. -/
theorem C2_traversal_escapes :
    unpack_archive [["..", "evil.txt"]] ["home", "user", "app"]
      = [["home", "user", "evil.txt"]]
    ∧ isUnder ["home", "user", "app"] ["home", "user", "evil.txt"] = false := by
  decide

/-- Characterisation of `fetch_archive` once the probe has produced a parsed
remote timestamp: all that remains is the freshness comparison and, on its
download side, the download outcome. -/
theorem fetch_archive_probe_ok (env : FetchEnv) (name : String) (ty : ArchiveType)
    (st : Nat) (s : String) (remote : Nat)
    (hm : env.mkdir ≠ MkdirOutcome.otherError)
    (hh : env.head = some ⟨st, some s⟩)
    (hp : env.parseDate s = some remote) :
    fetch_archive env name ty =
      if remote < env.localFile.mtimeOr datetimeMin then
        { result := Except.ok (localArchivePath name ty),
          trace := [Effect.mkdirCache (get_cached_blueprint_path name),
                    Effect.headProbe ty (blueprintURL name ty),
                    Effect.getMTime (localArchivePath name ty)],
          fileAfter := env.localFile }
      else if env.downloadOk then
        { result := Except.ok (localArchivePath name ty),
          trace := [Effect.mkdirCache (get_cached_blueprint_path name),
                    Effect.headProbe ty (blueprintURL name ty),
                    Effect.getMTime (localArchivePath name ty),
                    Effect.download ty (blueprintURL name ty) (localArchivePath name ty)],
          fileAfter := FileState.file env.now true }
      else
        { result := Except.error BlueprintError.downloadFailed,
          trace := [Effect.mkdirCache (get_cached_blueprint_path name),
                    Effect.headProbe ty (blueprintURL name ty),
                    Effect.getMTime (localArchivePath name ty),
                    Effect.download ty (blueprintURL name ty) (localArchivePath name ty)],
          fileAfter := FileState.file env.now false } := by
  obtain ⟨mk, hd, pd, lf, dl, now⟩ := env
  simp only at hh hp hm
  subst hh
  cases mk with
  | otherError => exact absurd rfl hm
  | created => simp [fetch_archive, hp]
  | alreadyExists => simp [fetch_archive, hp]

/-- C1: for every bundle name and archive kind, once the probe has produced
`remoteModifiedAt` and the local file's `localModifiedAt` is read: if
`remoteModifiedAt < localModifiedAt` the fetch returns the cached file and
its trace contains no download; otherwise (including exact equality) the
trace contains a download. -/
theorem C1_freshness_decision (env : FetchEnv) (name : String) (ty : ArchiveType)
    (st remote localM : Nat) (s : String)
    (hm : env.mkdir ≠ MkdirOutcome.otherError)
    (hh : env.head = some ⟨st, some s⟩)
    (hp : env.parseDate s = some remote)
    (hl : env.localFile.mtimeOr datetimeMin = localM) :
    (remote < localM →
      (fetch_archive env name ty).result = Except.ok (localArchivePath name ty)
      ∧ hasDownloadEff (fetch_archive env name ty).trace = false)
    ∧ (localM ≤ remote → hasDownloadEff (fetch_archive env name ty).trace = true) := by
  rw [fetch_archive_probe_ok env name ty st s remote hm hh hp, hl]
  constructor
  · intro hlt
    rw [if_pos hlt]
    exact ⟨rfl, rfl⟩
  · intro hge
    rw [if_neg (not_lt.mpr hge)]
    cases env.downloadOk <;> rfl

/-- C1 witness: with remote timestamp 3 and local timestamp 7 the cached file
is reused with no download; with remote timestamp 7 equal to local timestamp
7 a download is issued. -/
theorem C1_freshness_decision_witness :
    ((fetch_archive
        ⟨MkdirOutcome.created, some ⟨200, some "lm"⟩,
          (fun t => if t = "lm" then some 3 else none), FileState.file 7 true, true, 9⟩
        "quick_start" ArchiveType.app).result
        = Except.ok (localArchivePath "quick_start" ArchiveType.app)
      ∧ hasDownloadEff (fetch_archive
        ⟨MkdirOutcome.created, some ⟨200, some "lm"⟩,
          (fun t => if t = "lm" then some 3 else none), FileState.file 7 true, true, 9⟩
        "quick_start" ArchiveType.app).trace = false)
    ∧ hasDownloadEff (fetch_archive
        ⟨MkdirOutcome.created, some ⟨200, some "lm"⟩,
          (fun t => if t = "lm" then some 7 else none), FileState.file 7 true, true, 9⟩
        "quick_start" ArchiveType.app).trace = true :=
  ⟨(C1_freshness_decision
      ⟨MkdirOutcome.created, some ⟨200, some "lm"⟩,
        (fun t => if t = "lm" then some 3 else none), FileState.file 7 true, true, 9⟩
      "quick_start" ArchiveType.app 200 3 7 "lm"
      (by decide) rfl (by decide) rfl).1 (by decide),
   (C1_freshness_decision
      ⟨MkdirOutcome.created, some ⟨200, some "lm"⟩,
        (fun t => if t = "lm" then some 7 else none), FileState.file 7 true, true, 9⟩
      "quick_start" ArchiveType.app 200 7 7 "lm"
      (by decide) rfl (by decide) rfl).2 (by decide)⟩

/-- C6: for every fetch where the local archive file does not exist,
`localModifiedAt` is taken to be `datetime.min`, the minimum possible
timestamp (no timestamp is below it), so whatever remote timestamp the probe
produced, the decision is a download. -/
theorem C6_absent_local_downloads (env : FetchEnv) (name : String) (ty : ArchiveType)
    (st remote : Nat) (s : String)
    (hm : env.mkdir ≠ MkdirOutcome.otherError)
    (hh : env.head = some ⟨st, some s⟩)
    (hp : env.parseDate s = some remote)
    (hl : env.localFile = FileState.absent) :
    env.localFile.mtimeOr datetimeMin = datetimeMin
    ∧ (∀ t : Nat, datetimeMin ≤ t)
    ∧ hasDownloadEff (fetch_archive env name ty).trace = true := by
  refine ⟨by rw [hl]; rfl, fun t => Nat.zero_le t, ?_⟩
  rw [fetch_archive_probe_ok env name ty st s remote hm hh hp, hl]
  rw [if_neg (by exact Nat.not_lt_zero remote)]
  cases env.downloadOk <;> rfl

/-- C6 witness: local file absent, remote timestamp 0 (the least possible):
a download is still issued. -/
theorem C6_absent_local_downloads_witness :
    hasDownloadEff (fetch_archive
      ⟨MkdirOutcome.created, some ⟨200, some "lm"⟩,
        (fun t => if t = "lm" then some 0 else none), FileState.absent, true, 4⟩
      "food_ordering" ArchiveType.kb).trace = true :=
  (C6_absent_local_downloads _ "food_ordering" ArchiveType.kb 200 0 "lm"
    (by decide) rfl (by decide) rfl).2.2

/-- C5 counterexample: a probe that completes with the non-success status 500
but carries a parsable last-modified header does not make `fetch` fail — the
status code is never examined, the freshness decision is made, and the fetch
downloads and succeeds. -/
theorem C5_status_not_checked :
    (fetch_archive
        ⟨MkdirOutcome.created, some ⟨500, some "lm"⟩,
          (fun t => if t = "lm" then some 3 else none), FileState.absent, true, 9⟩
        "quick_start" ArchiveType.app).result
      = Except.ok (localArchivePath "quick_start" ArchiveType.app)
    ∧ hasDownloadEff (fetch_archive
        ⟨MkdirOutcome.created, some ⟨500, some "lm"⟩,
          (fun t => if t = "lm" then some 3 else none), FileState.absent, true, 9⟩
        "quick_start" ArchiveType.app).trace = true :=
  ⟨rfl, rfl⟩

/-- C5 amended: `fetch` fails, with no download decision made, when the probe
raises a network failure or when the last-modified header is missing or
unparsable; the response status code itself is never examined — two probe
responses differing only in status behave identically. -/
theorem C5_probe_failures_fatal (env : FetchEnv) (name : String) (ty : ArchiveType)
    (hm : env.mkdir ≠ MkdirOutcome.otherError) :
    (env.head = none →
      (fetch_archive env name ty).result = Except.error BlueprintError.probeNetworkError
      ∧ hasDownloadEff (fetch_archive env name ty).trace = false)
    ∧ (∀ st : Nat, env.head = some ⟨st, none⟩ →
      (fetch_archive env name ty).result = Except.error BlueprintError.headerMissing
      ∧ hasDownloadEff (fetch_archive env name ty).trace = false)
    ∧ (∀ (st : Nat) (s : String), env.head = some ⟨st, some s⟩ →
      env.parseDate s = none →
      (fetch_archive env name ty).result = Except.error BlueprintError.headerUnparsable
      ∧ hasDownloadEff (fetch_archive env name ty).trace = false)
    ∧ (∀ (st st' : Nat) (lm : Option String),
      fetch_archive { env with head := some ⟨st, lm⟩ } name ty
        = fetch_archive { env with head := some ⟨st', lm⟩ } name ty) := by
  obtain ⟨mk, hd, pd, lf, dl, now⟩ := env
  simp only at hm ⊢
  cases mk with
  | otherError => exact absurd rfl hm
  | created =>
    refine ⟨?_, ?_, ?_, ?_⟩
    · rintro rfl; exact ⟨rfl, rfl⟩
    · rintro st rfl; exact ⟨rfl, rfl⟩
    · rintro st s rfl hps
      constructor <;> simp [fetch_archive, hps, hasDownloadEff, isDownloadEff]
    · intro st st' lm; rfl
  | alreadyExists =>
    refine ⟨?_, ?_, ?_, ?_⟩
    · rintro rfl; exact ⟨rfl, rfl⟩
    · rintro st rfl; exact ⟨rfl, rfl⟩
    · rintro st s rfl hps
      constructor <;> simp [fetch_archive, hps, hasDownloadEff, isDownloadEff]
    · intro st st' lm; rfl

/-- C5 witness for the amended claim: a network failure of the probe fails
the fetch, and a present-but-unparsable header fails the fetch. -/
theorem C5_probe_failures_fatal_witness :
    (fetch_archive
        ⟨MkdirOutcome.created, none, fun _ => none, FileState.absent, true, 0⟩
        "quick_start" ArchiveType.app).result
      = Except.error BlueprintError.probeNetworkError
    ∧ (fetch_archive
        ⟨MkdirOutcome.created, some ⟨200, some "garbage"⟩, fun _ => none,
          FileState.absent, true, 0⟩
        "quick_start" ArchiveType.app).result
      = Except.error BlueprintError.headerUnparsable :=
  ⟨((C5_probe_failures_fatal _ "quick_start" ArchiveType.app (by decide)).1 rfl).1,
   ((C5_probe_failures_fatal _ "quick_start" ArchiveType.app
      (by decide)).2.2.1 200 "garbage" rfl rfl).1⟩

/-- C7: evaluation of two consecutive fetches.  First fetch: local file
absent, remote timestamp 5, the download fails partway at time 10 — the
fetch errors but the cache path now holds a partial (incomplete) file with
mtime 10, because `urlretrieve` streams directly into the destination.
Second fetch: same remote timestamp 5, local file the partial one with mtime
10 — the freshness check sees `5 < 10`, issues no download, and returns the
partial file as the valid archive. -/
theorem C7_partial_download_looks_fresh :
    (fetch_archive
        ⟨MkdirOutcome.created, some ⟨200, some "lm"⟩,
          (fun t => if t = "lm" then some 5 else none), FileState.absent, false, 10⟩
        "quick_start" ArchiveType.app).result
      = Except.error BlueprintError.downloadFailed
    ∧ (fetch_archive
        ⟨MkdirOutcome.created, some ⟨200, some "lm"⟩,
          (fun t => if t = "lm" then some 5 else none), FileState.absent, false, 10⟩
        "quick_start" ArchiveType.app).fileAfter = FileState.file 10 false
    ∧ (fetch_archive
        ⟨MkdirOutcome.created, some ⟨200, some "lm"⟩,
          (fun t => if t = "lm" then some 5 else none), FileState.file 10 false, true, 20⟩
        "quick_start" ArchiveType.app).result
      = Except.ok (localArchivePath "quick_start" ArchiveType.app)
    ∧ hasDownloadEff (fetch_archive
        ⟨MkdirOutcome.created, some ⟨200, some "lm"⟩,
          (fun t => if t = "lm" then some 5 else none), FileState.file 10 false, true, 20⟩
        "quick_start" ArchiveType.app).trace = false
    ∧ (fetch_archive
        ⟨MkdirOutcome.created, some ⟨200, some "lm"⟩,
          (fun t => if t = "lm" then some 5 else none), FileState.file 10 false, true, 20⟩
        "quick_start" ArchiveType.app).fileAfter = FileState.file 10 false :=
  ⟨rfl, rfl, rfl, rfl, rfl⟩

/-- Every effect a fetch performs is one of its four operations: the cache
`makedirs`, the metadata probe, the local mtime read, and the download — all
addressed at this fetch's own bundle name and archive kind. -/
theorem fetch_trace_shape (fe : FetchEnv) (n : String) (ty : ArchiveType) :
    ∀ e ∈ (fetch_archive fe n ty).trace,
      e = Effect.mkdirCache (get_cached_blueprint_path n)
      ∨ e = Effect.headProbe ty (blueprintURL n ty)
      ∨ e = Effect.getMTime (localArchivePath n ty)
      ∨ e = Effect.download ty (blueprintURL n ty) (localArchivePath n ty) := by
  obtain ⟨mk, hd, pd, lf, dl, now⟩ := fe
  simp only [fetch_archive]
  cases mk <;> try (intro e he; simp at he; tauto)
  all_goals
    cases hd with
    | none => intro e he; simp at he; tauto
    | some resp =>
      obtain ⟨stt, lm⟩ := resp
      cases lm with
      | none => intro e he; simp at he; tauto
      | some s =>
        cases hps : pd s with
        | none => simp only [hps]; intro e he; simp at he; tauto
        | some r =>
          simp only [hps]
          split
          · intro e he; simp at he; tauto
          · split <;> (intro e he; simp at he; tauto)

/-- The app-archive fetch performs no knowledge-base fetch effect. -/
theorem hasKbFetchEff_fetch_app (fe : FetchEnv) (n : String) :
    hasKbFetchEff (fetch_archive fe n ArchiveType.app).trace = false := by
  rw [hasKbFetchEff, List.any_eq_false]
  intro e he
  rcases fetch_trace_shape fe n ArchiveType.app e he with rfl | rfl | rfl | rfl <;>
    simp [isKbFetchEff]

/-- A fetch performs no index-loading effect. -/
theorem loadIndexEffects_fetch (fe : FetchEnv) (n : String) (ty : ArchiveType) :
    loadIndexEffects (fetch_archive fe n ty).trace = [] := by
  rw [loadIndexEffects, List.filter_eq_nil_iff]
  intro e he
  rcases fetch_trace_shape fe n ty e he with rfl | rfl | rfl | rfl <;>
    simp [isLoadIndexEff]

/-- When every index load succeeds, the dispatch loop is exactly one
collaborator invocation per listed file, in order. -/
theorem dispatchIndexes_all_ok (lf : String → Bool) (a k h : String)
    (files : List String) (hall : ∀ f ∈ files, lf f = false) :
    dispatchIndexes lf a k h files
      = (Except.ok (),
         files.map fun f => Effect.loadIndex a (splitextStem f) (joinP k f) h) := by
  induction files with
  | nil => rfl
  | cons f rest ih =>
    have h1 : lf f = false := hall f (List.mem_cons_self f rest)
    have h2 := ih fun g hg => hall g (List.mem_cons_of_mem f hg)
    simp [dispatchIndexes, h1, h2]

/-- Filtering a list of index-loading effects for index-loading effects is
the identity. -/
theorem loadIndexEffects_map_loadIndex (l : List String) (a k h : String) :
    loadIndexEffects (l.map fun f => Effect.loadIndex a (splitextStem f) (joinP k f) h)
      = l.map fun f => Effect.loadIndex a (splitextStem f) (joinP k f) h := by
  induction l with
  | nil => rfl
  | cons f rest ih =>
    simp [loadIndexEffects, isLoadIndexEff, ih]

/-- The index-loading subtrace distributes over trace concatenation. -/
theorem loadIndexEffects_append (a b : List Effect) :
    loadIndexEffects (a ++ b) = loadIndexEffects a ++ loadIndexEffects b :=
  List.filter_append a b

/-- C4: for every `provision` whose application phase succeeds but where no
explicit index host is passed and `MM_ES_HOST` is absent, the run fails with
the missing-index-host error and its trace contains no knowledge-base fetch
effect (no probe of and no download from the kb archive); moreover the host
resolution step always prefers a (truthy) explicit argument over the
environment setting. -/
theorem C4_missing_es_host (env : Env) (name : String) (appPath : Option String)
    (la : String)
    (hn : name ∈ BLUEPRINTS)
    (hfa : (fetch_archive env.appFetch name ArchiveType.app).result = Except.ok la)
    (hu : env.appUnpackOk = true)
    (he : env.mmEsHost = none) :
    (blueprint env name appPath none).1 = Except.error BlueprintError.missingEsHost
    ∧ hasKbFetchEff (blueprint env name appPath none).2 = false
    ∧ (∀ (h : String) (envv : Option String), h ≠ "" →
        resolveEsHost (some h) envv = some h) := by
  have hsa : setup_app env name appPath
      = (Except.ok (abspath env.cwd (appPath.getD (joinP env.cwd name))),
         (fetch_archive env.appFetch name ArchiveType.app).trace
           ++ [Effect.unpack la
                (abspath env.cwd (appPath.getD (joinP env.cwd name)))]) := by
    simp [setup_app, hn, hfa, hu]
  have hsk : ∀ apArg : Option String,
      setup_kb env name apArg none
        = (Except.error BlueprintError.missingEsHost, []) := fun apArg => by
    simp [setup_kb, hn, resolveEsHost, he]
  refine ⟨?_, ?_, ?_⟩
  · simp [blueprint, hn, hsa, hsk]
  · have hfb := hasKbFetchEff_fetch_app env.appFetch name
    rw [hasKbFetchEff, List.any_eq_false] at hfb ⊢
    intro e he'
    simp [blueprint, hn, hsa, hsk] at he'
    rcases he' with he' | rfl
    · exact hfb e he'
    · simp [isKbFetchEff]
  · intro h envv hne
    simp [resolveEsHost, hne]

/-- C4 witness: `provision` of `quick_start` with a successful app phase, no
host argument and no `MM_ES_HOST`, fails with the missing-host error; and an
explicit host beats a set environment variable. -/
theorem C4_missing_es_host_witness :
    (blueprint
        ⟨"/cwd", none,
          ⟨MkdirOutcome.created, some ⟨200, some "lm"⟩,
            (fun t => if t = "lm" then some 3 else none), FileState.absent, true, 4⟩,
          ⟨MkdirOutcome.created, some ⟨200, some "lm"⟩,
            (fun t => if t = "lm" then some 3 else none), FileState.absent, true, 4⟩,
          true, true, [], [], fun _ => false⟩
        "quick_start" none none).1
      = Except.error BlueprintError.missingEsHost
    ∧ resolveEsHost (some "localhost:9200") (some "other-host") = some "localhost:9200" :=
  ⟨(C4_missing_es_host
      ⟨"/cwd", none,
        ⟨MkdirOutcome.created, some ⟨200, some "lm"⟩,
          (fun t => if t = "lm" then some 3 else none), FileState.absent, true, 4⟩,
        ⟨MkdirOutcome.created, some ⟨200, some "lm"⟩,
          (fun t => if t = "lm" then some 3 else none), FileState.absent, true, 4⟩,
        true, true, [], [], fun _ => false⟩
      "quick_start" none
      (localArchivePath "quick_start" ArchiveType.app)
      (by decide) rfl rfl rfl).1,
   (C4_missing_es_host
      ⟨"/cwd", none,
        ⟨MkdirOutcome.created, some ⟨200, some "lm"⟩,
          (fun t => if t = "lm" then some 3 else none), FileState.absent, true, 4⟩,
        ⟨MkdirOutcome.created, some ⟨200, some "lm"⟩,
          (fun t => if t = "lm" then some 3 else none), FileState.absent, true, 4⟩,
        true, true, [], [], fun _ => false⟩
      "quick_start" none
      (localArchivePath "quick_start" ArchiveType.app)
      (by decide) rfl rfl rfl).2.2 "localhost:9200" (some "other-host") (by decide)⟩

/-- C8: for every successful knowledge-base phase, the dispatcher's
collaborator invocations are exactly one per immediate file of the staged
knowledge-base directory, in order, each with the index name equal to the
file's name without its extension and the file's path directly under the kb
directory; the immediate subdirectories of the kb directory (and every file
inside them) are irrelevant to the whole run. -/
theorem C8_index_dispatch (env : Env) (name : String) (appPath : Option String)
    (host la : String) (subs : List (String × List String))
    (hn : name ∈ BLUEPRINTS)
    (hh : host ≠ "")
    (hf : (fetch_archive env.kbFetch name ArchiveType.kb).result = Except.ok la)
    (hu : env.kbUnpackOk = true)
    (hl : ∀ f ∈ env.kbFiles, env.loadFails f = false) :
    loadIndexEffects (setup_kb env name appPath (some host)).2
      = env.kbFiles.map (fun f =>
          Effect.loadIndex
            (basename (abspath env.cwd (appPath.getD (joinP env.cwd name))))
            (splitextStem f)
            (joinP (joinP (get_cached_blueprint_path name) "kb") f) host)
    ∧ (setup_kb env name appPath (some host)).1 = Except.ok ()
    ∧ setup_kb { env with kbSubdirs := subs } name appPath (some host)
        = setup_kb env name appPath (some host) := by
  have hres : resolveEsHost (some host) env.mmEsHost = some host := by
    simp [resolveEsHost, hh]
  have hd := dispatchIndexes_all_ok env.loadFails
      (basename (abspath env.cwd (appPath.getD (joinP env.cwd name))))
      (joinP (get_cached_blueprint_path name) "kb") host env.kbFiles hl
  refine ⟨?_, ?_, rfl⟩
  · have l1 := loadIndexEffects_fetch env.kbFetch name ArchiveType.kb
    have l2 := loadIndexEffects_map_loadIndex env.kbFiles
        (basename (abspath env.cwd (appPath.getD (joinP env.cwd name))))
        (joinP (get_cached_blueprint_path name) "kb") host
    rw [loadIndexEffects] at l1 l2
    simp [setup_kb, hn, hres, hf, hu, hd, loadIndexEffects, isLoadIndexEff, l1, l2]
  · simp [setup_kb, hn, hres, hf, hu, hd]

/-- C8 witness: the staged kb directory of `quick_start` holds the immediate
files `restaurants.json` and `menu_items.json` plus a subdirectory `nested`
containing `deep.json`; the collaborator is invoked exactly twice, with index
names `restaurants` and `menu_items`, and nothing from the subdirectory. -/
theorem C8_index_dispatch_witness :
    loadIndexEffects (setup_kb
        ⟨"/cwd", none,
          ⟨MkdirOutcome.created, some ⟨200, some "lm"⟩,
            (fun t => if t = "lm" then some 3 else none), FileState.absent, true, 4⟩,
          ⟨MkdirOutcome.created, some ⟨200, some "lm"⟩,
            (fun t => if t = "lm" then some 3 else none), FileState.absent, true, 4⟩,
          true, true, [("nested", ["deep.json"])],
          ["restaurants.json", "menu_items.json"], fun _ => false⟩
        "quick_start" (some "/apps/food") (some "es:9200")).2
      = [Effect.loadIndex "food" "restaurants"
           (joinP (joinP (get_cached_blueprint_path "quick_start") "kb")
             "restaurants.json") "es:9200",
         Effect.loadIndex "food" "menu_items"
           (joinP (joinP (get_cached_blueprint_path "quick_start") "kb")
             "menu_items.json") "es:9200"] :=
  ((C8_index_dispatch
      ⟨"/cwd", none,
        ⟨MkdirOutcome.created, some ⟨200, some "lm"⟩,
          (fun t => if t = "lm" then some 3 else none), FileState.absent, true, 4⟩,
        ⟨MkdirOutcome.created, some ⟨200, some "lm"⟩,
          (fun t => if t = "lm" then some 3 else none), FileState.absent, true, 4⟩,
        true, true, [("nested", ["deep.json"])],
        ["restaurants.json", "menu_items.json"], fun _ => false⟩
      "quick_start" (some "/apps/food") "es:9200"
      (localArchivePath "quick_start" ArchiveType.kb) []
      (by decide) (by decide) rfl rfl (fun f _ => rfl)).1).trans (by decide)

end Mmworkbench
